import Mathlib

/-!
Verification of `packages/next/src/server/web-server.ts` (NextWebServer).

The TypeScript class is shallowly embedded: each method relevant to the
claims becomes a Lean function over explicit state.  Query objects become
association lists, JS truthiness is made explicit, thrown errors become
`Except`, and injected collaborators (the rendering function, the i18n
provider, the ETag generator) become function parameters.  Helper modules
imported by `web-server.ts` but whose sources are not part of this
development (`removeTrailingSlash`, `isDynamicRoute`,
`interpolateDynamicPath`, `isAPIRoute`, `byteLength`) are modelled from
the specification; their doc comments say so explicitly.
-/

set_option autoImplicit false

namespace WebServer

/-- Decidable equality for `Except`, so that concrete runs of the
embedded handlers can be checked by `decide`. -/
instance {ε α : Type} [DecidableEq ε] [DecidableEq α] :
    DecidableEq (Except ε α) := fun x y =>
  match x, y with
  | .ok a, .ok b =>
    if h : a = b then .isTrue (by rw [h])
    else .isFalse (by intro hc; cases hc; exact h rfl)
  | .error e, .error f =>
    if h : e = f then .isTrue (by rw [h])
    else .isFalse (by intro hc; cases hc; exact h rfl)
  | .ok _, .error _ => .isFalse (by intro hc; cases hc)
  | .error _, .ok _ => .isFalse (by intro hc; cases hc)

/-- A parsed URL query: an association mapping from string keys to string
values (`NextParsedUrlQuery`).  Lookup finds the first binding. -/
abbrev Query := List (String × String)

/-- Lookup of a query key (reading `query.k` in JS; `none` = `undefined`). -/
def lookupQ : Query → String → Option String
  | [], _ => none
  | (k, v) :: t, key => if k = key then some v else lookupQ t key

/-- Assignment `query.k = v` in JS: replaces the first binding of `k`,
or appends a new one. -/
def setQ : Query → String → String → Query
  | [], key, v => [(key, v)]
  | (k, w) :: t, key, v =>
    if k = key then (key, v) :: t else (k, w) :: setQ t key v

/-- `delete query.k` in JS: removes every binding of `k`. -/
def deleteQ : Query → String → Query
  | [], _ => []
  | (k, w) :: t, key =>
    if k = key then deleteQ t key else (k, w) :: deleteQ t key

/-- JS truthiness of a (possibly absent) query value: `!!query.k`.
`undefined` and the empty string are falsy; every other string is truthy. -/
def truthy (v : Option String) : Bool :=
  v.getD "" != ""

/-- Splits a character list at every occurrence of `sep` (the separator
characters are dropped; adjacent separators yield empty pieces). -/
def chSplit (sep : Char) : List Char → List (List Char)
  | [] => [[]]
  | c :: t =>
    match chSplit sep t with
    | [] => [[]]
    | h :: r => if c = sep then [] :: h :: r else (c :: h) :: r

/-- The slash-separated segments of a pathname (as `p.split('/')`). -/
def pathSegments (p : String) : List String :=
  (chSplit '/' p.data).map String.mk

/-- Joins segments back into a pathname with `/` separators. -/
def joinSegments : List String → String
  | [] => ""
  | [s] => s
  | s :: t => s ++ "/" ++ joinSegments t

/-- Whether `s` ends with the string `t` (structural `endsWith`). -/
def strEndsWith (s t : String) : Bool :=
  t.data.isSuffixOf s.data

/-- Whether `s` starts with the string `t` (structural `startsWith`). -/
def strStartsWith (s t : String) : Bool :=
  t.data.isPrefixOf s.data

/-- Drops the last `n` characters of `s` (structural `dropRight`). -/
def strDropRight (s : String) (n : Nat) : String :=
  String.mk (s.data.take (s.data.length - n))

/-- Drops the first `n` characters of `s` (structural `drop`). -/
def strDrop (s : String) (n : Nat) : String :=
  String.mk (s.data.drop n)

/-- Modelled from the spec: `removeTrailingSlash`
(`shared/lib/router/utils/remove-trailing-slash`) is imported by
`web-server.ts` but its source is not part of this development.  Spec:
"Trailing slash is always stripped from the final pathname (canonical
form has no trailing slash except the root)."  One trailing slash is
removed; if nothing remains the root path `/` is returned. -/
def removeTrailingSlash (p : String) : String :=
  let q := if strEndsWith p "/" then strDropRight p 1 else p
  if q = "" then "/" else q

/-- Whether a path segment is a dynamic parameter segment `[param]`. -/
def isParamSegment (s : String) : Bool :=
  strStartsWith s "[" && strEndsWith s "]" && decide (3 ≤ s.data.length)

/-- Modelled from the spec: `isDynamicRoute`
(`shared/lib/router/utils`) is imported by `web-server.ts` but its source
is not part of this development.  Spec: a canonical pathname is dynamic
when it "contains parameter segments". -/
def isDynamicRoute (p : String) : Bool :=
  (pathSegments p).any isParamSegment

/-- Modelled from the spec: `interpolateDynamicPath` (`server-utils`) is
imported by `web-server.ts` but its source is not part of this
development.  Spec: the resolver "substitutes actual parameter values
from the query mapping into the path segments, producing a
fully-resolved path".  Each `[param]` segment is replaced by the query
value bound to `param`; a parameter with no query binding keeps its
bracketed segment. -/
def interpolateDynamicPath (p : String) (query : Query) : String :=
  joinSegments <| (pathSegments p).map fun s =>
    if isParamSegment s then
      match lookupQ query (strDropRight (strDrop s 1) 1) with
      | some v => v
      | none => s
    else s

/-- Modelled from the spec: `isAPIRoute` (`lib/is-api-route`) is imported
by `web-server.ts` but its source is not part of this development.  Spec:
paths "recognized as a programmatic API-style route"; modelled as the
pathnames under the `/api` prefix. -/
def isAPIRoute (p : String) : Bool :=
  p == "/api" || strStartsWith p "/api/"

/-- The UTF-8 encoding size of one character. -/
def charUtf8Size (c : Char) : Nat :=
  if c.toNat ≤ 0x7F then 1 else if c.toNat ≤ 0x7FF then 2
  else if c.toNat ≤ 0xFFFF then 3 else 4

/-- Modelled from the spec: `byteLength` (`api-utils/web`) is imported by
`web-server.ts` but its source is not part of this development.  Spec:
"byte length, not character length, to remain correct under multi-byte
text" — the length of the UTF-8 encoding of the payload. -/
def byteLength (s : String) : Nat :=
  s.data.foldl (fun n c => n + charUtf8Size c) 0

/-- `NextUrlWithParsedQuery` restricted to the fields `web-server.ts`
reads: the pathname and the parsed query. -/
structure ParsedUrl where
  pathname : String
  query : Query
deriving DecidableEq

/-- Errors thrown inside `handleCatchallRenderRequest`:
`Error('pathname is undefined')`, the `NoFallbackError` marker class from
`base-server`, and any other error raised by rendering (distinguished by
an opaque code). -/
inductive ServerError where
  | pathnameUndefined
  | noFallbackError
  | renderFailure (code : Nat)
deriving DecidableEq

/-- The i18n provider's `analyze`, as `web-server.ts` consumes it: from a
pathname it produces the detected locale (if any) and the pathname with
the locale prefix stripped.  Injected collaborator. -/
abbrev I18nAnalyze := String → Option String × String

/-- Lines 146–165: the pathname handed to `render`.  If the incoming
pathname differs from the configured page pathname
(`serverOptions.webServerConfig.pathname`, here `cfgPathname`), it is
replaced by the configured one and, when that is a dynamic route,
interpolated with the query parameters; finally one trailing slash is
removed ("next.js core assumes page path without trailing slash"). -/
def resolvedPathname (cfgPathname : String) (parsed : ParsedUrl) : String :=
  let pathname :=
    if parsed.pathname ≠ cfgPathname then
      if isDynamicRoute cfgPathname then
        interpolateDynamicPath cfgPathname parsed.query
      else cfgPathname
    else parsed.pathname
  removeTrailingSlash pathname

/-- Lines 167–172: if an i18n provider is configured and detects a locale
on the resolved pathname, record it as `query.__nextLocale`.  The
stripped pathname the provider returns is not consumed. -/
def localeQuery (i18n : Option I18nAnalyze) (pathname : String)
    (query : Query) : Query :=
  match i18n with
  | some analyze =>
    match (analyze pathname).1 with
    | some detectedLocale => setQ query "__nextLocale" detectedLocale
    | none => query
  | none => query

/-- Lines 139–181 of `handleCatchallRenderRequest`, up to the `render`
call: computes the pathname and query passed to `render` and the
`bubbleNoFallback` flag, or the `pathname is undefined` error.  The
flag is read (line 174) before the API-route deletion (lines 176–178). -/
def catchallResolve (cfgPathname : String) (i18n : Option I18nAnalyze)
    (parsed : ParsedUrl) : Except ServerError (String × Query × Bool) :=
  if parsed.pathname = "" then
    .error .pathnameUndefined
  else
    let pathname := resolvedPathname cfgPathname parsed
    let query := localeQuery i18n pathname parsed.query
    let bubbleNoFallback := truthy (lookupQ query "_nextBubbleNoFallback")
    let query :=
      if isAPIRoute pathname then deleteQ query "_nextBubbleNoFallback"
      else query
    .ok (pathname, query, bubbleNoFallback)

/-- Lines 134–194: `handleCatchallRenderRequest`.  The injected `render`
stands for `this.render`; it receives the resolved pathname and query.
On success the handler returns `{finished: true}`; a `NoFallbackError`
with the bubble flag set yields `{finished: false}`; every other error
(and a `NoFallbackError` without the flag) propagates. -/
def handleCatchallRenderRequest (cfgPathname : String)
    (i18n : Option I18nAnalyze)
    (render : String → Query → Except ServerError Unit)
    (parsed : ParsedUrl) : Except ServerError Bool :=
  match catchallResolve cfgPathname i18n parsed with
  | .error e => .error e
  | .ok (pathname, query, bubbleNoFallback) =>
    match render pathname query with
    | .ok _ => .ok true
    | .error err =>
      if err = ServerError.noFallbackError ∧ bubbleNoFallback = true then
        .ok false
      else
        .error err

/-- The `preview` field of a prerender manifest, restricted to the
`previewModeId` the synthesized manifest populates. -/
structure PreviewData where
  previewModeId : String
deriving DecidableEq

/-- `PrerenderManifest` as `web-server.ts` shapes it: version, the two
route tables (metadata kept opaque as strings), the not-found route list
and the preview data. -/
structure PrerenderManifest where
  version : Int
  routes : List (String × String)
  dynamicRoutes : List (String × String)
  notFoundRoutes : List String
  preview : PreviewData
deriving DecidableEq

/-- The manifest synthesized by `getPrerenderManifest` (lines 117–125):
version `-1`, empty route tables, no not-found routes and the fixed
development preview id. -/
def developmentManifest : PrerenderManifest :=
  { version := -1
    routes := []
    dynamicRoutes := []
    notFoundRoutes := []
    preview := { previewModeId := "development-id" } }

/-- Lines 114–128: `getPrerenderManifest`.  `dev` is the truthiness of
`renderOpts?.dev`; the option is the `prerenderManifest` supplied through
`webServerConfig` (`none` = `undefined`). -/
def getPrerenderManifest (dev : Bool)
    (prerenderManifest : Option PrerenderManifest) : PrerenderManifest :=
  match prerenderManifest with
  | none => developmentManifest
  | some m => if dev then developmentManifest else m

/-- `RenderOpts` restricted to the fields `renderHTML` reads or writes,
plus one representative untouched field (`buildId`) to state the frame
condition. -/
structure RenderOpts where
  dev : Bool
  disableOptimizedLoading : Bool
  runtime : String
  buildId : String
deriving DecidableEq

/-- The not-found entrypoint marker compared against in `renderHTML`
(line 212): `/not-found` in development, `/_not-found` otherwise. -/
def notFoundMarker (dev : Bool) : String :=
  if dev then "/not-found" else "/_not-found"

/-- Lines 210–214 of `renderHTML`: the pathname actually passed to the
injected `renderToHTML` — the not-found marker is rewritten to `/404`,
anything else passes through. -/
def renderHTMLPathname (dev : Bool) (pathname : String) : String :=
  if pathname = notFoundMarker dev then "/404" else pathname

/-- Line 220–223: the `Object.assign(renderOpts, {...})` overlay applied
to the shared `renderOpts` object. -/
def renderOptsOverlay (o : RenderOpts) : RenderOpts :=
  { o with disableOptimizedLoading := true, runtime := "experimental-edge" }

/-- The server state visible to `renderHTML`: the process-wide
`this.renderOpts` object. -/
structure ServerState where
  renderOpts : RenderOpts
deriving DecidableEq

/-- Lines 196–225: `renderHTML`.  `Object.assign` mutates the shared
`renderOpts` in place and the mutated object itself is what is passed to
`renderToHTML`; the embedding returns the post-call server state together
with the pathname and options object given to the rendering function. -/
def renderHTML (st : ServerState) (pathname : String) :
    ServerState × (String × RenderOpts) :=
  let pathname := renderHTMLPathname st.renderOpts.dev pathname
  let opts := renderOptsOverlay st.renderOpts
  ({ renderOpts := opts }, (pathname, opts))

/-- The response object (`WebNextResponse`) as `sendRenderResult` touches
it: a header mapping, an optional buffered body, and the sent flag. -/
structure WebResponse where
  headers : Query
  body : Option String
  sent : Bool
deriving DecidableEq

/-- `res.setHeader(k, v)`: replaces or adds the header. -/
def setHeader (res : WebResponse) (k v : String) : WebResponse :=
  { res with headers := setQ res.headers k v }

/-- `res.getHeader(k)`: `none` = `undefined`. -/
def getHeader (res : WebResponse) (k : String) : Option String :=
  lookupQ res.headers k

/-- The `type` option of `sendRenderResult`: `'html' | 'json'`. -/
inductive ContentKind where
  | html
  | json
deriving DecidableEq

/-- `RenderResult` as `sendRenderResult` consumes it: the `isDynamic`
flag, the declared `contentType` (`none` = `undefined`), and the payload
`toUnchunkedString()` would produce on the buffered path. -/
structure RenderResultModel where
  isDynamic : Bool
  contentType : Option String
  payload : String
deriving DecidableEq

/-- The options record of `sendRenderResult`. -/
structure SendOptions where
  result : RenderResultModel
  type : ContentKind
  generateEtags : Bool
  poweredByHeader : Bool

/-- Lines 238–255 of `sendRenderResult`: the header phase shared by both
delivery paths — the edge-runtime marker, the conditional promotional
header, and the content-type derivation.  JS truthiness:
`!res.getHeader('Content-Type')` is true when the header is absent or
holds the empty string, and `options.result.contentType ? ...` falls
through on an empty string. -/
def sendCommonHeaders (res : WebResponse) (o : SendOptions) : WebResponse :=
  let res := setHeader res "X-Edge-Runtime" "1"
  let res :=
    if o.poweredByHeader = true ∧ o.type = ContentKind.html then
      setHeader res "X-Powered-By" "Next.js"
    else res
  if (getHeader res "Content-Type").getD "" = "" then
    setHeader res "Content-Type"
      (if (o.result.contentType.getD "") ≠ "" then
        o.result.contentType.getD ""
      else if o.type = ContentKind.json then "application/json"
      else "text/html; charset=utf-8")
  else res

/-- Lines 227–290: `sendRenderResult`, with the injected `generateETag`
abstracted as `etag`.  After the shared header phase, the buffered path
(result not dynamic) sets `Content-Length` from the byte length,
optionally an `ETag`, and the body.  The dynamic path's stream wiring is
modelled separately (see the promise model below); here it only leaves
the body unbuffered. -/
def sendRenderResult (etag : String → String) (res : WebResponse)
    (o : SendOptions) : WebResponse :=
  let res := sendCommonHeaders res o
  if o.result.isDynamic then
    { res with sent := true }
  else
    let payload := o.result.payload
    let res := setHeader res "Content-Length" (toString (byteLength payload))
    let res :=
      if o.generateEtags then setHeader res "ETag" (etag payload) else res
    { res with body := some payload, sent := true }

/-- How the `writer.closed` promise of the streaming path settles:
fulfilled on graceful close, rejected when the stream is cancelled
mid-flight. -/
inductive PromiseOutcome where
  | fulfilled
  | rejected
deriving DecidableEq

/-- JS `promise.then(onFulfilled, onRejected)` observed at settlement:
each continuation is an optional callback acting on an invocation
counter.  Returns the counter after settlement and whether the
settlement left a rejection unhandled (rejected with no `onRejected`
continuation attached). -/
def promiseThen (outcome : PromiseOutcome)
    (onFulfilled onRejected : Option (Nat → Nat)) (calls : Nat) :
    Nat × Bool :=
  match outcome with
  | .fulfilled =>
    match onFulfilled with
    | some f => (f calls, false)
    | none => (calls, false)
  | .rejected =>
    match onRejected with
    | some f => (f calls, false)
    | none => (calls, true)

/-- The `onClose` handler of the streaming path, observed as an
invocation counter increment. -/
def onCloseCount : Nat → Nat := fun n => n + 1

/-- Line 278, `writer.closed.then(onClose, onClose)`: the pair of
continuations the streaming path attaches to the writer's closed
promise — the same `onClose` on both the fulfillment and the rejection
side. -/
def closedContinuations : Option (Nat → Nat) × Option (Nat → Nat) :=
  (some onCloseCount, some onCloseCount)

/-- The observable close behaviour of the streaming path for a given
settlement of `writer.closed`: number of `onClose` invocations and
whether an unhandled rejection occurred. -/
def streamCloseBehavior (outcome : PromiseOutcome) : Nat × Bool :=
  promiseThen outcome closedContinuations.1 closedContinuations.2 0

/-! ### Basic lemmas about the query model -/

theorem lookupQ_setQ (q : Query) (k v key : String) :
    lookupQ (setQ q k v) key = if key = k then some v else lookupQ q key := by
  induction q with
  | nil =>
    by_cases h : key = k
    · subst h; simp [setQ, lookupQ]
    · have h2 : ¬k = key := fun hc => h hc.symm
      simp [setQ, lookupQ, h, h2]
  | cons hd tl ih =>
    obtain ⟨k₀, v₀⟩ := hd
    by_cases h₀ : k₀ = k
    · subst h₀
      by_cases h : key = k₀
      · subst h; simp [setQ, lookupQ]
      · have h2 : ¬k₀ = key := fun hc => h hc.symm
        simp [setQ, lookupQ, h, h2]
    · by_cases h : key = k
      · subst h
        simp [setQ, lookupQ, h₀, ih]
      · by_cases h₁ : k₀ = key <;> simp [setQ, lookupQ, h₀, h₁, ih, h]

theorem lookupQ_deleteQ (q : Query) (k key : String) :
    lookupQ (deleteQ q k) key = if key = k then none else lookupQ q key := by
  induction q with
  | nil => simp [deleteQ, lookupQ]
  | cons hd tl ih =>
    obtain ⟨k₀, v₀⟩ := hd
    by_cases h₀ : k₀ = k
    · subst h₀
      by_cases h : key = k₀
      · subst h; simpa [deleteQ] using ih
      · have h2 : ¬k₀ = key := fun hc => h hc.symm
        simp [deleteQ, lookupQ, h, h2, ih]
    · by_cases h₁ : k₀ = key
      · subst h₁
        simp [deleteQ, lookupQ, h₀]
      · simp [deleteQ, lookupQ, h₀, h₁, ih]

/-- The locale step only writes `__nextLocale`; every other key reads the
same before and after it. -/
theorem lookupQ_localeQuery (i18n : Option I18nAnalyze) (pth : String)
    (q : Query) (key : String) (h : key ≠ "__nextLocale") :
    lookupQ (localeQuery i18n pth q) key = lookupQ q key := by
  cases i18n with
  | none => rfl
  | some analyze =>
    cases hl : (analyze pth).1 with
    | none => simp [localeQuery, hl]
    | some loc => simp [localeQuery, hl, lookupQ_setQ, h]

/-- Unpacking a successful `catchallResolve`: the incoming pathname was
non-empty, the resolved pathname ignores the i18n step, the bubble flag
is the truthiness of the incoming `_nextBubbleNoFallback`, and the query
is the locale-annotated query with the flag deleted exactly on API
routes. -/
theorem catchallResolve_ok (cfgPathname : String)
    (i18n : Option I18nAnalyze) (parsed : ParsedUrl)
    (p : String) (q : Query) (b : Bool)
    (hres : catchallResolve cfgPathname i18n parsed = .ok (p, q, b)) :
    parsed.pathname ≠ ""
    ∧ p = resolvedPathname cfgPathname parsed
    ∧ b = truthy (lookupQ parsed.query "_nextBubbleNoFallback")
    ∧ q = (if isAPIRoute (resolvedPathname cfgPathname parsed) then
            deleteQ (localeQuery i18n (resolvedPathname cfgPathname parsed)
              parsed.query) "_nextBubbleNoFallback"
          else
            localeQuery i18n (resolvedPathname cfgPathname parsed)
              parsed.query) := by
  unfold catchallResolve at hres
  by_cases hp : parsed.pathname = ""
  · simp [hp] at hres
  · simp only [hp, if_false, Except.ok.injEq, Prod.mk.injEq] at hres
    obtain ⟨h₁, h₂, h₃⟩ := hres
    refine ⟨hp, h₁.symm, ?_, h₂.symm⟩
    rw [← h₃, lookupQ_localeQuery]
    decide

/-! ### Claim theorems -/

/-- C1: in `handleCatchallRenderRequest`, the bubble flag is the
truthiness of the incoming `_nextBubbleNoFallback` query value; if the
flag is truthy and rendering raises `NoFallbackError` the handler
returns `{finished: false}` without raising; if the flag is falsy the
`NoFallbackError` propagates; and any error other than `NoFallbackError`
propagates regardless of the flag. -/
theorem handleCatchall_noFallback_bubbling
    (cfgPathname : String) (i18n : Option I18nAnalyze)
    (render : String → Query → Except ServerError Unit)
    (parsed : ParsedUrl) (p : String) (q : Query) (b : Bool)
    (hres : catchallResolve cfgPathname i18n parsed = .ok (p, q, b)) :
    b = truthy (lookupQ parsed.query "_nextBubbleNoFallback")
    ∧ (b = true → render p q = .error .noFallbackError →
        handleCatchallRenderRequest cfgPathname i18n render parsed
          = .ok false)
    ∧ (b = false → render p q = .error .noFallbackError →
        handleCatchallRenderRequest cfgPathname i18n render parsed
          = .error .noFallbackError)
    ∧ (∀ e : ServerError, e ≠ .noFallbackError → render p q = .error e →
        handleCatchallRenderRequest cfgPathname i18n render parsed
          = .error e) := by
  obtain ⟨hp, hpath, hb, hq⟩ := catchallResolve_ok _ _ _ _ _ _ hres
  refine ⟨hb, ?_, ?_, ?_⟩
  · intro hbt hr
    simp [handleCatchallRenderRequest, hres, hr, hbt]
  · intro hbf hr
    simp [handleCatchallRenderRequest, hres, hr, hbf]
  · intro e he hr
    simp [handleCatchallRenderRequest, hres, hr, he]

/-- C1 witness: a truthy flag plus a `NoFallbackError` from rendering
yields `{finished: false}` on a concrete request. -/
theorem handleCatchall_noFallback_bubbling_witness :
    handleCatchallRenderRequest "/page" none
      (fun _ _ => Except.error ServerError.noFallbackError)
      ⟨"/page", [("_nextBubbleNoFallback", "1")]⟩ = Except.ok false :=
  (handleCatchall_noFallback_bubbling "/page" none
    (fun _ _ => Except.error ServerError.noFallbackError)
    ⟨"/page", [("_nextBubbleNoFallback", "1")]⟩
    "/page" [("_nextBubbleNoFallback", "1")] true (by decide)).2.1 rfl rfl

/-- C2 counterexample: on the non-API route `/page` with
`_nextBubbleNoFallback=1`, the query passed to `render` still contains
the `_nextBubbleNoFallback` binding — the flag is not stripped for
non-API routes. -/
theorem catchall_flag_not_stripped_counterexample :
    catchallResolve "/page" none
      ⟨"/page", [("_nextBubbleNoFallback", "1")]⟩
      = .ok ("/page", [("_nextBubbleNoFallback", "1")], true)
    ∧ lookupQ [("_nextBubbleNoFallback", "1")] "_nextBubbleNoFallback"
      = some "1" := by
  decide

/-- C2 amended: the `_nextBubbleNoFallback` flag is deleted from the
query passed to `render` exactly when the resolved pathname is an
API-style route; on non-API routes its binding reaches `render`
unchanged. -/
theorem catchall_flag_stripped_iff_api
    (cfgPathname : String) (i18n : Option I18nAnalyze) (parsed : ParsedUrl)
    (p : String) (q : Query) (b : Bool)
    (hres : catchallResolve cfgPathname i18n parsed = .ok (p, q, b)) :
    (isAPIRoute p = true → lookupQ q "_nextBubbleNoFallback" = none)
    ∧ (isAPIRoute p = false →
        lookupQ q "_nextBubbleNoFallback"
          = lookupQ parsed.query "_nextBubbleNoFallback") := by
  obtain ⟨hp, hpath, hb, hq⟩ := catchallResolve_ok _ _ _ _ _ _ hres
  subst hpath
  constructor
  · intro hapi
    rw [hq]
    simp [hapi, lookupQ_deleteQ]
  · intro hapi
    rw [hq]
    simp [hapi]
    exact lookupQ_localeQuery _ _ _ _ (by decide)

/-- C2 amended witness: on the API route `/api/x` the flag is stripped,
on `/page` it reaches the rendering query. -/
theorem catchall_flag_stripped_iff_api_witness :
    isAPIRoute "/api/x" = true
    ∧ lookupQ ([] : Query) "_nextBubbleNoFallback" = none
    ∧ isAPIRoute "/page" = false
    ∧ lookupQ [("_nextBubbleNoFallback", "1")] "_nextBubbleNoFallback"
      = lookupQ [("_nextBubbleNoFallback", "1")] "_nextBubbleNoFallback" :=
  ⟨by decide,
   (catchall_flag_stripped_iff_api "/api/x" none
     ⟨"/api/x", [("_nextBubbleNoFallback", "1")]⟩ "/api/x" [] true
     (by decide)).1 (by decide),
   by decide,
   (catchall_flag_stripped_iff_api "/page" none
     ⟨"/page", [("_nextBubbleNoFallback", "1")]⟩ "/page"
     [("_nextBubbleNoFallback", "1")] true (by decide)).2 (by decide)⟩

/-- C3 counterexample: when the incoming pathname already equals the
canonical dynamic pathname `/blog/[slug]`, interpolation is skipped and
the pathname passed to `render` keeps its unresolved `[slug]` segment
even though the query carries `slug=hello` (interpolation would have
produced `/blog/hello`). -/
theorem catchall_interpolation_skipped_counterexample :
    catchallResolve "/blog/[slug]" none
      ⟨"/blog/[slug]", [("slug", "hello")]⟩
      = .ok ("/blog/[slug]", [("slug", "hello")], false)
    ∧ isDynamicRoute "/blog/[slug]" = true
    ∧ interpolateDynamicPath "/blog/[slug]" [("slug", "hello")]
      = "/blog/hello"
    ∧ ("/blog/[slug]" : String) ≠ "/blog/hello" := by
  decide

/-- C3 amended: the pathname passed to `render` is the trailing-slash
stripped resolved pathname; when the incoming pathname differs from the
canonical one, a dynamic canonical pathname is fully interpolated with
the query parameters (and a non-dynamic one passed as is), and the
result does not depend on the incoming pathname — in particular adding
a trailing slash to a non-canonical pathname cannot change it.
Interpolation is skipped only when the incoming pathname equals the
canonical dynamic pathname. -/
theorem catchall_pathname_normalized
    (cfgPathname : String) (i18n : Option I18nAnalyze) (parsed : ParsedUrl)
    (p : String) (q : Query) (b : Bool)
    (hres : catchallResolve cfgPathname i18n parsed = .ok (p, q, b)) :
    p = resolvedPathname cfgPathname parsed
    ∧ (parsed.pathname ≠ cfgPathname → isDynamicRoute cfgPathname = true →
        p = removeTrailingSlash
          (interpolateDynamicPath cfgPathname parsed.query))
    ∧ (parsed.pathname ≠ cfgPathname → isDynamicRoute cfgPathname = false →
        p = removeTrailingSlash cfgPathname)
    ∧ (∀ other : ParsedUrl, other.pathname ≠ "" →
        other.pathname ≠ cfgPathname → other.query = parsed.query →
        parsed.pathname ≠ cfgPathname →
        ∃ q₂ b₂, catchallResolve cfgPathname i18n other = .ok (p, q₂, b₂)) := by
  obtain ⟨hp, hpath, hb, hq⟩ := catchallResolve_ok _ _ _ _ _ _ hres
  refine ⟨hpath, ?_, ?_, ?_⟩
  · intro hne hdyn
    rw [hpath]
    simp [resolvedPathname, hne, hdyn]
  · intro hne hdyn
    rw [hpath]
    simp [resolvedPathname, hne, hdyn]
  · intro other hne hneq hquery hparsedne
    have hsame : resolvedPathname cfgPathname other
        = resolvedPathname cfgPathname parsed := by
      simp [resolvedPathname, hneq, hparsedne, hquery]
    rcases hok : catchallResolve cfgPathname i18n other with e | ⟨p₂, q₂, b₂⟩
    · exfalso
      simp [catchallResolve, hne] at hok
    · obtain ⟨_, hpath₂, _, _⟩ := catchallResolve_ok _ _ _ _ _ _ hok
      refine ⟨q₂, b₂, ?_⟩
      rw [hpath₂, hsame, ← hpath]

/-- C3 amended witness: the request `/blog/[slug]/` (differing from the
canonical `/blog/[slug]`) is interpolated and slash-stripped to
`/blog/hello`. -/
theorem catchall_pathname_normalized_witness :
    ("/blog/hello" : String)
      = removeTrailingSlash
          (interpolateDynamicPath "/blog/[slug]" [("slug", "hello")])
    ∧ isDynamicRoute "/blog/[slug]" = true :=
  ⟨(catchall_pathname_normalized "/blog/[slug]" none
      ⟨"/blog/[slug]/", [("slug", "hello")]⟩ "/blog/hello"
      [("slug", "hello")] false (by decide)).2.1 (by decide) (by decide),
   by decide⟩

/-- C9 counterexample: the i18n provider detects locale `fr` on
`/fr/foo` and reports the stripped pathname `/foo`, yet the pathname
passed onward by `handleCatchallRenderRequest` is still `/fr/foo` — the
locale prefix is not stripped; only `__nextLocale` is recorded. -/
theorem catchall_locale_not_stripped_counterexample :
    catchallResolve "/fr/foo"
      (some fun p => (if p = "/fr/foo" then some "fr" else none, "/foo"))
      ⟨"/fr/foo", []⟩
      = .ok ("/fr/foo", [("__nextLocale", "fr")], false)
    ∧ ("/fr/foo" : String) ≠ "/foo" := by
  decide

/-- C9 amended: when a locale is detected it is recorded into the query
as `__nextLocale`, but the pathname is passed onward unchanged by the
locale step (it is the i18n-independent resolved pathname); when no
locale is detected the query too is unchanged by this step (only the
API-route flag deletion may still apply). -/
theorem catchall_locale_recorded_not_stripped
    (cfgPathname : String) (analyze : I18nAnalyze) (parsed : ParsedUrl)
    (p : String) (q : Query) (b : Bool)
    (hres : catchallResolve cfgPathname (some analyze) parsed
      = .ok (p, q, b)) :
    p = resolvedPathname cfgPathname parsed
    ∧ (∀ loc, (analyze (resolvedPathname cfgPathname parsed)).1 = some loc →
        lookupQ q "__nextLocale" = some loc)
    ∧ ((analyze (resolvedPathname cfgPathname parsed)).1 = none →
        q = (if isAPIRoute p then
              deleteQ parsed.query "_nextBubbleNoFallback"
            else parsed.query)) := by
  obtain ⟨hp, hpath, hb, hq⟩ := catchallResolve_ok _ _ _ _ _ _ hres
  refine ⟨hpath, ?_, ?_⟩
  · intro loc hl
    rw [hq]
    by_cases hapi : isAPIRoute (resolvedPathname cfgPathname parsed) = true
    · simp [hapi, lookupQ_deleteQ, localeQuery, hl, lookupQ_setQ]
    · simp only [Bool.not_eq_true] at hapi
      simp [hapi, localeQuery, hl, lookupQ_setQ]
  · intro hl
    rw [hq, hpath]
    simp [localeQuery, hl]

/-- C9 amended witness: concrete locale detection records
`__nextLocale=fr` while the pathname stays `/fr/foo`. -/
theorem catchall_locale_recorded_not_stripped_witness :
    ("/fr/foo" : String)
      = resolvedPathname "/fr/foo" ⟨"/fr/foo", []⟩
    ∧ lookupQ [("__nextLocale", "fr")] "__nextLocale" = some "fr" := by
  have h := catchall_locale_recorded_not_stripped "/fr/foo"
    (fun p => (if p = "/fr/foo" then some "fr" else none, "/foo"))
    ⟨"/fr/foo", []⟩ "/fr/foo" [("__nextLocale", "fr")] false (by decide)
  exact ⟨h.1, h.2.1 "fr" (by decide)⟩

/-- Reading a header after setting one: the assoc-map law lifted to the
response object. -/
theorem getHeader_setHeader (res : WebResponse) (k v key : String) :
    getHeader (setHeader res k v) key
      = if key = k then some v else getHeader res key := by
  simp [getHeader, setHeader, lookupQ_setQ]

/-- Updating body and sent flag leaves the headers untouched. -/
theorem getHeader_body_update (res : WebResponse) (b : Option String)
    (key : String) :
    getHeader { res with body := b, sent := true } key = getHeader res key :=
  rfl

/-- Marking the response sent leaves the headers untouched. -/
theorem getHeader_sent_update (res : WebResponse) (key : String) :
    getHeader { res with sent := true } key = getHeader res key :=
  rfl

/-- The shared header phase only writes the three header names it
mentions; every other header reads the same before and after it. -/
theorem getHeader_common_other (res : WebResponse) (o : SendOptions)
    (key : String) (h1 : key ≠ "X-Edge-Runtime") (h2 : key ≠ "X-Powered-By")
    (h3 : key ≠ "Content-Type") :
    getHeader (sendCommonHeaders res o) key = getHeader res key := by
  unfold sendCommonHeaders
  split_ifs <;>
    by_cases hc : (getHeader res "Content-Type").getD "" = "" <;>
      simp_all [getHeader_setHeader]

/-- The shared header phase's effect on `X-Powered-By`. -/
theorem getHeader_common_poweredBy (res : WebResponse) (o : SendOptions) :
    getHeader (sendCommonHeaders res o) "X-Powered-By"
      = (if o.poweredByHeader = true ∧ o.type = ContentKind.html then
          some "Next.js"
        else getHeader res "X-Powered-By") := by
  unfold sendCommonHeaders
  split_ifs <;>
    by_cases hc : (getHeader res "Content-Type").getD "" = "" <;>
      simp_all [getHeader_setHeader]

/-- The shared header phase's effect on `Content-Type`: an absent or
empty header is replaced by the derived content type, a non-empty one is
kept. -/
theorem getHeader_common_contentType (res : WebResponse) (o : SendOptions) :
    getHeader (sendCommonHeaders res o) "Content-Type"
      = (if (getHeader res "Content-Type").getD "" = "" then
          some (if (o.result.contentType.getD "") ≠ "" then
              o.result.contentType.getD ""
            else if o.type = ContentKind.json then "application/json"
            else "text/html; charset=utf-8")
        else getHeader res "Content-Type") := by
  unfold sendCommonHeaders
  split_ifs <;>
    by_cases hc : (getHeader res "Content-Type").getD "" = "" <;>
      simp_all [getHeader_setHeader]

/-- C4: the streaming path of `sendRenderResult` attaches the same
`onClose` handler to both the fulfillment and the rejection continuation
of `writer.closed`; consequently, whether the stream closes gracefully
or is cancelled mid-stream, `onClose` runs exactly once and no
settlement is left as an unhandled rejection. -/
theorem streamClose_dual_continuations :
    closedContinuations.1 = some onCloseCount
    ∧ closedContinuations.2 = some onCloseCount
    ∧ (∀ outcome : PromiseOutcome, streamCloseBehavior outcome = (1, false)) := by
  refine ⟨rfl, rfl, ?_⟩
  intro outcome
  cases outcome <;> rfl

/-- C5: on the buffered path, `Content-Length` is exactly the UTF-8 byte
length of the payload, the body is the payload, and `ETag` is populated
from the ETag generator exactly when `generateEtags` is set (otherwise
the header is whatever it already was). -/
theorem sendRenderResult_buffered (etag : String → String)
    (res : WebResponse) (o : SendOptions)
    (hdyn : o.result.isDynamic = false) :
    getHeader (sendRenderResult etag res o) "Content-Length"
      = some (toString (byteLength o.result.payload))
    ∧ (o.generateEtags = true →
        getHeader (sendRenderResult etag res o) "ETag"
          = some (etag o.result.payload))
    ∧ (o.generateEtags = false →
        getHeader (sendRenderResult etag res o) "ETag"
          = getHeader res "ETag")
    ∧ (sendRenderResult etag res o).body = some o.result.payload := by
  refine ⟨?_, ?_, ?_, ?_⟩
  · by_cases hg : o.generateEtags <;>
      simp [sendRenderResult, hdyn, hg, getHeader_body_update,
        getHeader_setHeader]
  · intro hg
    simp [sendRenderResult, hdyn, hg, getHeader_body_update,
      getHeader_setHeader]
  · intro hg
    simp [sendRenderResult, hdyn, hg, getHeader_body_update,
      getHeader_setHeader, getHeader_common_other]
  · by_cases hg : o.generateEtags <;>
      simp [sendRenderResult, hdyn, hg]

/-- C5 witness: for the multi-byte payload `héllo` the emitted
`Content-Length` is its byte length `6`, which differs from its
character count `5`; the `ETag` comes from the generator. -/
theorem sendRenderResult_buffered_witness :
    getHeader
        (sendRenderResult (fun _ => "etag0") ⟨[], none, false⟩
          ⟨⟨false, none, "héllo"⟩, ContentKind.json, true, false⟩)
        "Content-Length"
      = some (toString (byteLength "héllo"))
    ∧ byteLength "héllo" = 6
    ∧ ("héllo" : String).data.length = 5
    ∧ getHeader
        (sendRenderResult (fun _ => "etag0") ⟨[], none, false⟩
          ⟨⟨false, none, "héllo"⟩, ContentKind.json, true, false⟩)
        "ETag"
      = some "etag0" := by
  have h := sendRenderResult_buffered (fun _ => "etag0") ⟨[], none, false⟩
    ⟨⟨false, none, "héllo"⟩, ContentKind.json, true, false⟩ rfl
  exact ⟨h.1, by decide, by decide, h.2.1 rfl⟩

/-- C6 counterexample: a `Content-Type` header that is already present
with the empty-string value is falsy under `!res.getHeader(...)`, so
`sendRenderResult` does overwrite it — the claim's "an already-present
Content-Type header is never overwritten" fails for that input. -/
theorem sendRenderResult_contentType_overwrite_counterexample :
    getHeader (⟨[("Content-Type", "")], none, false⟩ : WebResponse)
      "Content-Type" = some ""
    ∧ getHeader
        (sendRenderResult (fun _ => "e")
          ⟨[("Content-Type", "")], none, false⟩
          ⟨⟨false, some "text/plain", "x"⟩, ContentKind.html, false, false⟩)
        "Content-Type"
      = some "text/plain" := by
  decide

/-- C6 amended: `X-Powered-By` is set to `Next.js` exactly when
`poweredByHeader` is true and the type is html (otherwise left as it
was); an already-present non-empty `Content-Type` is never overwritten;
a `Content-Type` that is absent or present with the empty string is set
to the result's declared content type when that is non-empty, else to
`application/json` for json and `text/html; charset=utf-8` for html. -/
theorem sendRenderResult_headers (etag : String → String)
    (res : WebResponse) (o : SendOptions) :
    getHeader (sendRenderResult etag res o) "X-Powered-By"
      = (if o.poweredByHeader = true ∧ o.type = ContentKind.html then
          some "Next.js"
        else getHeader res "X-Powered-By")
    ∧ (∀ v, getHeader res "Content-Type" = some v → v ≠ "" →
        getHeader (sendRenderResult etag res o) "Content-Type" = some v)
    ∧ ((getHeader res "Content-Type").getD "" = "" →
        getHeader (sendRenderResult etag res o) "Content-Type"
          = some (if (o.result.contentType.getD "") ≠ "" then
                o.result.contentType.getD ""
              else if o.type = ContentKind.json then "application/json"
              else "text/html; charset=utf-8")) := by
  have hxp : ∀ r : WebResponse,
      getHeader (sendRenderResult etag r o) "X-Powered-By"
        = getHeader (sendCommonHeaders r o) "X-Powered-By" := by
    intro r
    by_cases hd : o.result.isDynamic <;> by_cases hg : o.generateEtags <;>
      simp [sendRenderResult, hd, hg, getHeader_body_update,
        getHeader_sent_update, getHeader_setHeader]
  have hct : ∀ r : WebResponse,
      getHeader (sendRenderResult etag r o) "Content-Type"
        = getHeader (sendCommonHeaders r o) "Content-Type" := by
    intro r
    by_cases hd : o.result.isDynamic <;> by_cases hg : o.generateEtags <;>
      simp [sendRenderResult, hd, hg, getHeader_body_update,
        getHeader_sent_update, getHeader_setHeader]
  refine ⟨?_, ?_, ?_⟩
  · rw [hxp, getHeader_common_poweredBy]
  · intro v hv hne
    rw [hct, getHeader_common_contentType, hv]
    simp [hne]
  · intro hv
    rw [hct, getHeader_common_contentType, if_pos hv]

/-- C6 amended witness: with no prior headers, json type and no declared
content type, the emitted `Content-Type` is exactly `application/json`;
with `poweredByHeader` and html type, `X-Powered-By` is `Next.js`; a
prior non-empty `Content-Type` survives. -/
theorem sendRenderResult_headers_witness :
    getHeader
        (sendRenderResult (fun _ => "e") ⟨[], none, false⟩
          ⟨⟨false, none, "x"⟩, ContentKind.json, false, false⟩)
        "Content-Type" = some "application/json"
    ∧ getHeader
        (sendRenderResult (fun _ => "e") ⟨[], none, false⟩
          ⟨⟨false, none, "x"⟩, ContentKind.html, false, true⟩)
        "X-Powered-By" = some "Next.js"
    ∧ getHeader
        (sendRenderResult (fun _ => "e")
          ⟨[("Content-Type", "text/css")], none, false⟩
          ⟨⟨false, none, "x"⟩, ContentKind.html, false, false⟩)
        "Content-Type" = some "text/css" := by
  refine ⟨?_, ?_, ?_⟩
  · have h := (sendRenderResult_headers (fun _ => "e") ⟨[], none, false⟩
      ⟨⟨false, none, "x"⟩, ContentKind.json, false, false⟩).2.2 (by decide)
    rw [h]
    decide
  · have h := (sendRenderResult_headers (fun _ => "e") ⟨[], none, false⟩
      ⟨⟨false, none, "x"⟩, ContentKind.html, false, true⟩).1
    rw [h]
    decide
  · exact (sendRenderResult_headers (fun _ => "e")
      ⟨[("Content-Type", "text/css")], none, false⟩
      ⟨⟨false, none, "x"⟩, ContentKind.html, false, false⟩).2.1
      "text/css" (by decide) (by decide)

/-- C7: `renderHTML` passes `/404` to the injected rendering function
exactly for the runtime's not-found marker pathname (`/not-found` in
dev, `/_not-found` otherwise); every other pathname is passed through
unchanged. -/
theorem renderHTML_notFound_rewrite (st : ServerState) (pathname : String) :
    (pathname = notFoundMarker st.renderOpts.dev →
      (renderHTML st pathname).2.1 = "/404")
    ∧ (pathname ≠ notFoundMarker st.renderOpts.dev →
      (renderHTML st pathname).2.1 = pathname) := by
  constructor <;> intro h <;> simp [renderHTML, renderHTMLPathname, h]

/-- C7 witness: the dev marker `/not-found` and the production marker
`/_not-found` are rewritten to `/404`; `/blog` passes through. -/
theorem renderHTML_notFound_rewrite_witness :
    (renderHTML ⟨⟨true, false, "", ""⟩⟩ "/not-found").2.1 = "/404"
    ∧ (renderHTML ⟨⟨false, false, "", ""⟩⟩ "/_not-found").2.1 = "/404"
    ∧ (renderHTML ⟨⟨false, false, "", ""⟩⟩ "/blog").2.1 = "/blog" :=
  ⟨(renderHTML_notFound_rewrite ⟨⟨true, false, "", ""⟩⟩ "/not-found").1
     (by decide),
   (renderHTML_notFound_rewrite ⟨⟨false, false, "", ""⟩⟩ "/_not-found").1
     (by decide),
   (renderHTML_notFound_rewrite ⟨⟨false, false, "", ""⟩⟩ "/blog").2
     (by decide)⟩

/-- C8: `getPrerenderManifest` returns the supplied manifest unchanged
when one exists and dev mode is off; in dev mode or with no supplied
manifest it returns the synthesized manifest with version `-1`, empty
`routes`, `dynamicRoutes` and `notFoundRoutes`, and preview id
`development-id`. -/
theorem getPrerenderManifest_spec (dev : Bool)
    (m : Option PrerenderManifest) :
    (∀ pm, m = some pm → dev = false → getPrerenderManifest dev m = pm)
    ∧ (dev = true ∨ m = none →
        getPrerenderManifest dev m = developmentManifest
        ∧ (getPrerenderManifest dev m).version = -1
        ∧ (getPrerenderManifest dev m).routes = []
        ∧ (getPrerenderManifest dev m).dynamicRoutes = []
        ∧ (getPrerenderManifest dev m).notFoundRoutes = []
        ∧ (getPrerenderManifest dev m).preview.previewModeId
          = "development-id") := by
  constructor
  · intro pm hm hdev
    subst hm hdev
    rfl
  · intro h
    rcases h with h | h
    · subst h
      cases m <;> exact ⟨rfl, rfl, rfl, rfl, rfl, rfl⟩
    · subst h
      exact ⟨rfl, rfl, rfl, rfl, rfl, rfl⟩

/-- C8 witness: a concrete manifest is returned unchanged in production,
and dev mode yields the synthesized development manifest. -/
theorem getPrerenderManifest_spec_witness :
    getPrerenderManifest false
        (some ⟨7, [("/a", "m")], [], [], ⟨"prod-id"⟩⟩)
      = ⟨7, [("/a", "m")], [], [], ⟨"prod-id"⟩⟩
    ∧ getPrerenderManifest true
        (some ⟨7, [("/a", "m")], [], [], ⟨"prod-id"⟩⟩)
      = developmentManifest
    ∧ (getPrerenderManifest true none).version = -1 :=
  ⟨(getPrerenderManifest_spec false
      (some ⟨7, [("/a", "m")], [], [], ⟨"prod-id"⟩⟩)).1
      ⟨7, [("/a", "m")], [], [], ⟨"prod-id"⟩⟩ rfl rfl,
   ((getPrerenderManifest_spec true
      (some ⟨7, [("/a", "m")], [], [], ⟨"prod-id"⟩⟩)).2 (Or.inl rfl)).1,
   ((getPrerenderManifest_spec true none).2 (Or.inl rfl)).2.1⟩

/-- C10: `renderHTML` mutates the process-wide `renderOpts` in place
through `Object.assign`: after any call, `disableOptimizedLoading` is
true and `runtime` is `experimental-edge` on the server's own options
object, all other fields are unchanged, the very object passed to the
rendering function is the server's post-call `renderOpts`, and the two
overlaid fields persist across subsequent calls. -/
theorem renderHTML_mutates_shared_renderOpts (st : ServerState)
    (pathname : String) :
    ((renderHTML st pathname).1.renderOpts.disableOptimizedLoading = true
    ∧ (renderHTML st pathname).1.renderOpts.runtime = "experimental-edge")
    ∧ (renderHTML st pathname).1.renderOpts.dev = st.renderOpts.dev
    ∧ (renderHTML st pathname).1.renderOpts.buildId = st.renderOpts.buildId
    ∧ (renderHTML st pathname).2.2 = (renderHTML st pathname).1.renderOpts
    ∧ (∀ p₂ : String,
        ((renderHTML (renderHTML st pathname).1 p₂).1.renderOpts.disableOptimizedLoading
          = true)
        ∧ ((renderHTML (renderHTML st pathname).1 p₂).1.renderOpts.runtime
          = "experimental-edge")) := by
  refine ⟨⟨rfl, rfl⟩, rfl, rfl, rfl, ?_⟩
  intro p₂
  exact ⟨rfl, rfl⟩

end WebServer
